import Mathlib

/-!
Verification of the DDL-to-Java boilerplate generator (`generator.js`,
config-driven v2.0 version, the one exported by `module.exports`).

Modelling conventions:
* JavaScript strings are modelled as `List Char`; all inputs of interest
  (DDL text, identifiers, configuration tokens) are ASCII, where
  `Char.toLower`/`Char.toUpper` agree with JavaScript `toLowerCase`/
  `toUpperCase`.
* Configuration is the object loaded by `loadConfig`/`getDefaultConfig`,
  flattened into one structure.  Where the source reads a field through
  `x.y || default` the falsy-fallback is made explicit: string fields use
  `jsOr` (the empty string is falsy), the numeric threshold uses `jsOrNat`
  (0 is falsy), and list fields are `Option`s read through `getD`
  (an empty array is truthy in JavaScript, so only a missing list falls
  back).
* Regular-expression searches are embedded as explicit scanning functions;
  each is justified next to its definition.  The patterns used by the
  source contain no constructs whose greedy maximal-munch matching differs
  from backtracking (each repeated class is followed by a character
  disjoint from the class), so maximal munch is exact.
-/

/-- JavaScript `x || d` for strings: the empty string is falsy. -/
def jsOr (x d : List Char) : List Char := if x = [] then d else x

/-- JavaScript `x || d` for numbers: `0` is falsy. -/
def jsOrNat (x d : Nat) : Nat := if x = 0 then d else x

/-- ASCII lower-casing of a whole string (JS `toLowerCase`). -/
def jsToLower (s : List Char) : List Char := s.map Char.toLower

/-- ASCII upper-casing of a whole string (JS `toUpperCase`). -/
def jsToUpper (s : List Char) : List Char := s.map Char.toUpper

/-- JS `str.split(sep)` for a one-character separator. -/
def splitOnCh (sep : Char) : List Char → List (List Char)
  | [] => [[]]
  | c :: rest =>
      if c = sep then [] :: splitOnCh sep rest
      else
        match splitOnCh sep rest with
        | [] => [c] :: []
        | g :: gs => (c :: g) :: gs

/-- The characters treated as whitespace by JS `trim` and `\s`
(restricted to the ASCII range). -/
def jsIsSpace (c : Char) : Bool :=
  c = ' ' || c = '\t' || c = '\n' || c = '\r' || c = '\x0b' || c = '\x0c'

/-- JS `str.trim()`: strip whitespace from both ends. -/
def jsTrim (l : List Char) : List Char :=
  ((l.dropWhile jsIsSpace).reverse.dropWhile jsIsSpace).reverse

/-- The character class `\w` of JS regular expressions. -/
def isWordChar (c : Char) : Bool := c.isAlpha || c.isDigit || c = '_'

/-- The decimal characters captured by `\d+`, read by `parseInt`. -/
def digitsToNat (l : List Char) : Nat :=
  l.foldl (fun acc c => 10 * acc + (c.toNat - '0'.toNat)) 0

/-- JS `word.charAt(0).toUpperCase() + word.slice(1)`. -/
def capWord : List Char → List Char
  | [] => []
  | c :: rest => Char.toUpper c :: rest

/-- The configuration object of `generator.js` (`getDefaultConfig` /
`config.json`), restricted to the fields the transformation core reads.
File-output fields (`output.directory`, `output.fileExtensions`) feed only
the CLI wrapper and are omitted. -/
structure Config where
  /-- `naming.prefixes` (a missing list falls back inside `toCamelCase`). -/
  prefixes : Option (List (List Char))
  /-- `naming.tablePrefixes`. -/
  tablePrefixes : Option (List (List Char))
  /-- `naming.removeThreeLetterPrefixes`. -/
  removeThreeLetterPrefixes : Bool
  /-- `typeMapping.NUMBER.default`, `""` when missing. -/
  numberDefault : List Char
  /-- `typeMapping.NUMBER.large`. -/
  numberLarge : List Char
  /-- `typeMapping.NUMBER.decimal`. -/
  numberDecimal : List Char
  /-- `typeMapping.NUMBER.largeThreshold`, `0` when missing. -/
  largeThreshold : Nat
  /-- `typeMapping.STRING.types`. -/
  stringTypes : Option (List (List Char))
  /-- `typeMapping.STRING.default`. -/
  stringDefault : List Char
  /-- `typeMapping.DATE.types`. -/
  dateTypes : Option (List (List Char))
  /-- `typeMapping.DATE.default`. -/
  dateDefault : List Char
  /-- `validation.generateAnnotations`. -/
  generateAnnotations : Bool
  /-- `validation.stringValidation`. -/
  stringValidation : List Char
  /-- `validation.otherValidation`. -/
  otherValidation : List Char
  /-- `validation.generateSchema`. -/
  generateSchema : Bool
  /-- `output.indentation`. -/
  indentation : List Char
  deriving DecidableEq

/-- `naming.prefixes` of `getDefaultConfig()`. -/
def defaultPrefixTokens : List (List Char) :=
  [("nr".toList), ("cd".toList), ("ds".toList), ("dt".toList),
   ("fl".toList), ("vl".toList), ("nm".toList), ("tp".toList), ("chm".toList), ("pes".toList)]

/-- `getDefaultConfig()` from `generator.js`. -/
def defaultConfig : Config where
  prefixes := some defaultPrefixTokens
  tablePrefixes := some [("tb".toList)]
  removeThreeLetterPrefixes := true
  numberDefault := "Integer".toList
  numberLarge := "Long".toList
  numberDecimal := "BigDecimal".toList
  largeThreshold := 9
  stringTypes := some [("CHAR".toList), ("VARCHAR2".toList), ("TEXT".toList)]
  stringDefault := "String".toList
  dateTypes := some [("DATE".toList), ("TIMESTAMP".toList)]
  dateDefault := "LocalDateTime".toList
  generateAnnotations := true
  stringValidation := "@NotBlank".toList
  otherValidation := "@NotNull".toList
  generateSchema := true
  indentation := "    ".toList

/-- The `for (const p of prefixes)` loop inside `toCamelCase`: on the first
segment, find the first configured prefix token `p` with
`word.startsWith(p) && word.length > p.length` and return
`p + word.charAt(p.length).toUpperCase() + word.slice(p.length + 1)`;
fall through to the unchanged word when no token matches. -/
def applyGluedToken : List (List Char) → List Char → List Char
  | [], w => w
  | p :: ps, w =>
      if p.isPrefixOf w && decide (p.length < w.length) then
        p ++ Char.toUpper (w.getD p.length ' ') :: w.drop (p.length + 1)
      else applyGluedToken ps w

/-- `toCamelCase` (generator.js lines 219-237).  The indexed `map`/`join('')`
of the source is written as: transform the first segment with the prefix
loop, capitalize every later segment, concatenate. -/
def toCamelCase (cfg : Config) (s : List Char) : List Char :=
  let prefixes := cfg.prefixes.getD
    [("nr".toList), ("cd".toList), ("ds".toList), ("dt".toList),
     ("fl".toList), ("vl".toList), ("nm".toList), ("tp".toList)]
  let parts := splitOnCh '_' (jsToLower s)
  let parts :=
    if cfg.removeThreeLetterPrefixes && ((parts.headD []).length == 3) then parts.tail
    else parts
  match parts with
  | [] => []
  | w :: rest => applyGluedToken prefixes w ++ (rest.map capWord).flatten

/-- `toPascalCase` (generator.js lines 240-251): drop one leading segment
equal to a configured table-prefix token, then (when
`removeThreeLetterPrefixes` is set) one leading three-character segment;
capitalize and concatenate what is left. -/
def toPascalCase (cfg : Config) (s : List Char) : List Char :=
  let tablePrefixes := cfg.tablePrefixes.getD [("tb".toList)]
  let parts := splitOnCh '_' (jsToLower s)
  let parts := if tablePrefixes.contains (parts.headD []) then parts.tail else parts
  let parts :=
    if cfg.removeThreeLetterPrefixes && decide (0 < parts.length)
        && ((parts.headD []).length == 3) then parts.tail
    else parts
  (parts.map capWord).flatten

/-- JS `s.includes(pat)`: `pat` occurs contiguously somewhere in `s`. -/
def jsIncludes : List Char → List Char → Bool
  | s, pat =>
    if pat.isPrefixOf s then true
    else
      match s with
      | [] => false
      | _ :: rest => jsIncludes rest pat

/-- The `{ java, annotation }` record returned by `mapOracleType`
(the field `ann` holds the validation-annotation string). -/
structure TypeInfo where
  java : List Char
  ann : List Char
  deriving DecidableEq

/-- `mapOracleType` (generator.js lines 254-295).  The captured precision
and scale reach it as decimal strings or `undefined`; `parseInt(x || 0)`
is modelled by converting captured digits with `digitsToNat` at the call
site, so the parameters here are `Option Nat` read through `getD 0`. -/
def mapOracleType (cfg : Config) (type : List Char) (precision scale : Option Nat) : TypeInfo :=
  let ty := jsToUpper type
  let p := precision.getD 0
  let s := scale.getD 0
  if jsIncludes ty ("NUMBER".toList) then
    if 0 < s then
      { java := jsOr cfg.numberDecimal ("BigDecimal".toList)
        ann := if cfg.generateAnnotations then
            ("@Digits(integer = ".toList) ++ (toString ((p : Int) - (s : Int))).toList
              ++ (", fraction = ".toList) ++ (toString s).toList ++ (")".toList)
          else [] }
    else
      let threshold := jsOrNat cfg.largeThreshold 9
      if threshold < p then
        { java := jsOr cfg.numberLarge ("Long".toList)
          ann := if cfg.generateAnnotations then
              ("@Min(0) @Max(".toList) ++ List.replicate p '9' ++ ("L)".toList)
            else [] }
      else
        { java := jsOr cfg.numberDefault ("Integer".toList)
          ann := if cfg.generateAnnotations then
              ("@Min(0) @Max(".toList) ++ List.replicate p '9' ++ (")".toList)
            else [] }
  else if (cfg.stringTypes.getD [("CHAR".toList), ("VARCHAR2".toList), ("TEXT".toList)]).any
      (fun t => jsIncludes ty t) then
    { java := jsOr cfg.stringDefault ("String".toList)
      ann := if cfg.generateAnnotations then
          ("@Size(max = ".toList) ++ (toString p).toList ++ (")".toList)
        else [] }
  else if (cfg.dateTypes.getD [("DATE".toList)]).any (fun t => jsIncludes ty t) then
    { java := jsOr cfg.dateDefault ("LocalDateTime".toList), ann := [] }
  else
    { java := "String".toList, ann := [] }

/-- Case-insensitive literal matching (the `/i` flag): consume `pat` from
the front of `s`, comparing ASCII-folded characters. -/
def stripCI : List Char → List Char → Option (List Char)
  | [], s => some s
  | _ :: _, [] => none
  | p :: ps, c :: cs => if Char.toLower c = Char.toLower p then stripCI ps cs else none

/-- Attempt `/CREATE TABLE (\w+)\.(\w+)/i` at the head of `s`.  Both `\w+`
are greedy and each is followed by a non-word character in the pattern
(`\.`, or nothing), so maximal munch is exact. -/
def matchQualifiedAt (s : List Char) : Option (List Char × List Char) :=
  match stripCI ("CREATE TABLE ".toList) s with
  | none => none
  | some r =>
    let schema := r.takeWhile isWordChar
    if schema = [] then none
    else
      match r.dropWhile isWordChar with
      | '.' :: r3 =>
          let table := r3.takeWhile isWordChar
          if table = [] then none else some (schema, table)
      | _ => none

/-- Leftmost match of `/CREATE TABLE (\w+)\.(\w+)/i`, as performed by
`ddl.match(...)`. -/
def searchQualified : List Char → Option (List Char × List Char)
  | [] => none
  | c :: rest =>
      match matchQualifiedAt (c :: rest) with
      | some r => some r
      | none => searchQualified rest

/-- Attempt `/CREATE TABLE (\w+)/i` at the head of `s`. -/
def matchSimpleAt (s : List Char) : Option (List Char) :=
  match stripCI ("CREATE TABLE ".toList) s with
  | none => none
  | some r =>
    let table := r.takeWhile isWordChar
    if table = [] then none else some table

/-- Leftmost match of `/CREATE TABLE (\w+)/i`. -/
def searchSimple : List Char → Option (List Char)
  | [] => none
  | c :: rest =>
      match matchSimpleAt (c :: rest) with
      | some r => some r
      | none => searchSimple rest

/-- Attempt `/PRIMARY KEY \(([^)]+)\)/i` at the head of `s`: the greedy
`[^)]+` stops exactly at the first `)` (or fails at end of input). -/
def matchPKAt (s : List Char) : Option (List Char) :=
  match stripCI ("PRIMARY KEY (".toList) s with
  | none => none
  | some r =>
    let inner := r.takeWhile (fun c => !(c = ')'))
    if inner = [] then none
    else
      match r.dropWhile (fun c => !(c = ')')) with
      | ')' :: _ => some inner
      | _ => none

/-- Leftmost match of `/PRIMARY KEY \(([^)]+)\)/i`. -/
def searchPK : List Char → Option (List Char)
  | [] => none
  | c :: rest =>
      match matchPKAt (c :: rest) with
      | some r => some r
      | none => searchPK rest

/-- The primary-key identifiers of `parseDDL`:
`pkMatch[1].split(',').forEach(pk => pks.push(pk.trim()))`. -/
def pkList (ddl : List Char) : List (List Char) :=
  match searchPK ddl with
  | some inner => (splitOnCh ',' inner).map jsTrim
  | none => []

/-- The table-location step of `parseDDL` (generator.js lines 300-313):
`ddl.match(qualified) || ddl.match(simple)`, with the defaults
`schema = 'dbo'`, `tableName = 'Unknown'`. -/
def schemaTable (ddl : List Char) : List Char × List Char :=
  match searchQualified ddl with
  | some (sch, tbl) => (sch, tbl)
  | none =>
      match searchSimple ddl with
      | some tbl => (("dbo".toList), tbl)
      | none => (("dbo".toList), ("Unknown".toList))

/-- One parsed column of the model. -/
structure Column where
  originalName : List Char
  javaName : List Char
  pascalName : List Char
  javaType : List Char
  ann : List Char
  isId : Bool
  deriving DecidableEq, Inhabited

/-- The parsed table model. -/
structure TableModel where
  schema : List Char
  originalTableName : List Char
  className : List Char
  columns : List Column
  deriving DecidableEq

/-- Attempt `/^(\w+)\s+(\w+)(?:\((\d+)(?:,(\d+))?\))?/` against the start
of `r` (the text following the type token): the optional parenthesized
group.  Greedy `\d+` runs are each followed by a character outside `\d`,
so maximal munch is exact; when the whole group fails to match, the
enclosing `(?:...)?` is skipped and both captures stay `undefined`. -/
def precScale (r : List Char) : Option (List Char × Option (List Char)) :=
  match r with
  | '(' :: r1 =>
    let digs := r1.takeWhile Char.isDigit
    if digs = [] then none
    else
      match r1.dropWhile Char.isDigit with
      | ')' :: _ => some (digs, none)
      | ',' :: r3 =>
          let digs2 := r3.takeWhile Char.isDigit
          if digs2 = [] then none
          else
            match r3.dropWhile Char.isDigit with
            | ')' :: _ => some (digs, some digs2)
            | _ => none
      | _ => none
  | _ => none

/-- The column-line pattern `/^(\w+)\s+(\w+)(?:\((\d+)(?:,(\d+))?\))?/`
applied to a trimmed line: captured name, type, precision, scale. -/
def matchColumnLine (t : List Char) :
    Option (List Char × List Char × Option (List Char) × Option (List Char)) :=
  let name := t.takeWhile isWordChar
  if name = [] then none
  else
    let r1 := t.dropWhile isWordChar
    let sp := r1.takeWhile jsIsSpace
    if sp = [] then none
    else
      let r2 := r1.dropWhile jsIsSpace
      let ty := r2.takeWhile isWordChar
      if ty = [] then none
      else
        match precScale (r2.dropWhile isWordChar) with
        | some (p, sc) => some (name, ty, some p, sc)
        | none => some (name, ty, none, none)

/-- The per-line body of the `lines.forEach` loop of `parseDDL`
(generator.js lines 320-338): trim, match the column pattern, skip lines
starting with `CONSTRAINT`, `CREATE`, `KEY` or `)`, and build a `Column`. -/
def processLine (cfg : Config) (pks : List (List Char)) (line : List Char) : Option Column :=
  let trimmed := jsTrim line
  match matchColumnLine trimmed with
  | none => none
  | some (colName, colType, precision, scale) =>
      if ("CONSTRAINT".toList).isPrefixOf trimmed || ("CREATE".toList).isPrefixOf trimmed
          || ("KEY".toList).isPrefixOf trimmed || (")".toList).isPrefixOf trimmed then none
      else
        let typeInfo := mapOracleType cfg colType (precision.map digitsToNat) (scale.map digitsToNat)
        some
          { originalName := colName
            javaName := toCamelCase cfg colName
            pascalName := capWord (toCamelCase cfg colName)
            javaType := typeInfo.java
            ann := typeInfo.ann
            isId := pks.contains colName }

/-- `parseDDL` (generator.js lines 298-346). -/
def parseDDL (cfg : Config) (ddl : List Char) : TableModel :=
  let st := schemaTable ddl
  { schema := st.1
    originalTableName := st.2
    className := toPascalCase cfg st.2
    columns := (splitOnCh '\n' ddl).filterMap (processLine cfg (pkList ddl)) }

/-- The `pkClass` marker of `generateEntity` (generator.js line 352):
`@IdClass(...)` exactly when more than one column is flagged as id. -/
def entityPkClass (data : TableModel) : List Char :=
  if 1 < (data.columns.filter (fun c => c.isId)).length then
    ("@IdClass(".toList) ++ data.className ++ ("Id.class)".toList)
  else []

/-- One column block of the entity body (generator.js lines 365-370). -/
def entityFieldBlock (indent : List Char) (col : Column) : List Char :=
  (if col.isId then indent ++ ("@Id\n".toList) else [])
    ++ indent ++ ("@Column(name = \"".toList) ++ col.originalName ++ ("\")\n".toList)
    ++ indent ++ ("private ".toList) ++ col.javaType ++ (" ".toList) ++ col.javaName ++ (";".toList)

/-- `generateEntity` (generator.js lines 348-372). -/
def generateEntity (cfg : Config) (data : TableModel) : List Char :=
  let indent := jsOr cfg.indentation ("    ".toList)
  let pkClass := entityPkClass data
  ("/** JAVA ENTITY **/\n\n@Data\n@Entity\n@Table(schema = \"".toList)
    ++ data.schema ++ ("\", name = \"".toList) ++ data.originalTableName ++ ("\")\n".toList)
    ++ pkClass ++ ("\npublic class ".toList) ++ data.className
    ++ (" implements Serializable \x7b\n\n".toList)
    ++ indent ++ ("@Serial\n".toList)
    ++ indent ++ ("private static final long serialVersionUID = 1L;\n\n".toList)
    ++ List.intercalate ("\n\n".toList) (data.columns.map (entityFieldBlock indent))
    ++ ("\n\x7d".toList)

/-- The `notBlank` required-marker choice of `generateDTO`
(generator.js line 385): the resolved type is compared with the literal
`'String'`. -/
def dtoMarker (cfg : Config) (col : Column) : List Char :=
  if col.javaType = ("String".toList) then jsOr cfg.stringValidation ("@NotBlank".toList)
  else jsOr cfg.otherValidation ("@NotNull".toList)

/-- One per-column interface block of `generateDTO`
(generator.js lines 384-393). -/
def dtoFieldBlock (cfg : Config) (indent : List Char) (col : Column) : List Char :=
  let notBlank := dtoMarker cfg col
  let schemaAnn :=
    if cfg.generateSchema then ("@Schema(description = \" \", example = \" \")".toList) else []
  indent ++ ("protected interface ".toList) ++ col.pascalName ++ (" \x7b\n".toList)
    ++ indent ++ notBlank ++ ("\n".toList)
    ++ indent ++ col.ann ++ ("\n".toList)
    ++ indent ++ schemaAnn ++ ("\n".toList)
    ++ indent ++ col.javaType ++ (" get".toList) ++ col.pascalName ++ ("();\n".toList)
    ++ indent ++ ("\x7d".toList)

/-- `generateDTO` (generator.js lines 374-411). -/
def generateDTO (cfg : Config) (data : TableModel) : List Char :=
  let indent := jsOr cfg.indentation ("    ".toList)
  let interfacesList := List.intercalate (", ".toList) (data.columns.map (fun c => c.pascalName))
  ("/** JAVA DTO **/\n\npublic enum ".toList) ++ data.className ++ ("DTO \x7b;\n\n".toList)
    ++ List.intercalate ("\n\n".toList) (data.columns.map (dtoFieldBlock cfg indent))
    ++ ("\n\n".toList) ++ indent ++ ("public enum Request \x7b;\n".toList)
    ++ indent ++ indent ++ ("@Data\n".toList)
    ++ indent ++ indent ++ ("@EqualsAndHashCode(callSuper = true)\n".toList)
    ++ indent ++ indent ++ ("public static class Base implements ".toList) ++ interfacesList
    ++ (" \x7b\n".toList)
    ++ List.intercalate ("\n".toList) (data.columns.map (fun col =>
        indent ++ indent ++ indent ++ ("private ".toList) ++ col.javaType ++ (" ".toList)
          ++ col.javaName ++ (";".toList)))
    ++ ("\n".toList) ++ indent ++ indent ++ ("\x7d\n".toList)
    ++ ("        \n".toList)
    ++ indent ++ indent ++ ("@Data\n".toList)
    ++ indent ++ indent ++ ("@EqualsAndHashCode(callSuper = true)\n".toList)
    ++ indent ++ indent ++ ("public static class Cadastro extends Base \x7b\x7d\n".toList)
    ++ indent ++ ("\x7d\n\n".toList)
    ++ indent ++ ("public enum Response \x7b;\n".toList)
    ++ indent ++ indent ++ ("public interface Buscar extends ".toList) ++ interfacesList
    ++ (" \x7b\x7d\n".toList)
    ++ indent ++ ("\x7d\n\x7d".toList)

/-- The amended C1 behaviour, written out from the amended claim's words
(for comparison with `toPascalCase`): drop at most one leading segment
equal to a configured table-prefix token, then at most one leading
three-character segment when `removeThreeLetterPrefixes` is set;
capitalize the first character of each remaining segment, keep the rest of
the segment, and concatenate.  There is no fallback, so the result is
empty when every segment was dropped. -/
def pascalAmendedSpec (cfg : Config) (s : List Char) : List Char :=
  let segs := splitOnCh '_' (jsToLower s)
  let segs1 :=
    match segs with
    | p :: rest => if p ∈ cfg.tablePrefixes.getD [("tb".toList)] then rest else segs
    | [] => segs
  let segs2 :=
    match segs1 with
    | p :: rest => if cfg.removeThreeLetterPrefixes = true ∧ p.length = 3 then rest else segs1
    | [] => segs1
  (segs2.map capWord).flatten

/-- A configuration identical to the default one except that the
configured string target type (`typeMapping.STRING.default`) is `Texto`
rather than `String`; used to refute C2. -/
def texCfg : Config := { defaultConfig with stringDefault := "Texto".toList }

/-- A one-column DDL whose column resolves to the configured string type
of `texCfg`. -/
def texDDL : List Char := ("CREATE TABLE TB_X\nNM_X VARCHAR2(10)").toList

example : toCamelCase defaultConfig ("nrcliente".toList) = ("nrCliente".toList) := by decide
example : toCamelCase defaultConfig ("dt_ressarcimento_cliente".toList)
    = ("dtRessarcimentoCliente".toList) := by decide
example : toPascalCase defaultConfig ("TB_CLIENTE".toList) = ("Cliente".toList) := by decide
example : toPascalCase defaultConfig ("tb".toList) = [] := by decide
example : toPascalCase defaultConfig ("a_tb".toList) = ("ATb".toList) := by decide

/-- C3: under the default configuration, a column declared `NUMBER(10)`
(precision 10, no scale) maps to the large integer type `Long` with the
bound `@Min(0) @Max(9999999999L)` whose maximum literal is the digit `9`
repeated exactly ten times (carrying Java's long suffix `L`); and in
general a `NUMBER` whose parsed scale is 0 and whose precision exceeds the
threshold 9 maps to `Long` with a maximum literal of `precision` repeated
nines. -/
theorem c3_number_large :
    mapOracleType defaultConfig ("NUMBER".toList) (some 10) none
      = { java := "Long".toList
          ann := ("@Min(0) @Max(".toList) ++ List.replicate 10 '9' ++ ("L)".toList) } ∧
    ∀ (p : Nat) (s : Option Nat), 9 < p → s.getD 0 = 0 →
      mapOracleType defaultConfig ("NUMBER".toList) (some p) s
        = { java := "Long".toList
            ann := ("@Min(0) @Max(".toList) ++ List.replicate p '9' ++ ("L)".toList) } := by
  constructor
  · decide
  · intro p s hp hs
    have hn : jsIncludes (jsToUpper ("NUMBER".toList)) ("NUMBER".toList) = true := by decide
    simp only [mapOracleType, hn, if_true, hs]
    simp [defaultConfig, jsOrNat, jsOr, hp]

/-- Witness for `c3_number_large` at precision 12 and missing scale. -/
theorem c3_number_large_witness :
    mapOracleType defaultConfig ("NUMBER".toList) (some 12) none
      = { java := "Long".toList
          ann := ("@Min(0) @Max(".toList) ++ List.replicate 12 '9' ++ ("L)".toList) } :=
  c3_number_large.2 12 none (by decide) (by decide)

/-- C4: under the default configuration, a column declared `NUMBER(15,2)`
maps to `BigDecimal` with `@Digits(integer = 13, fraction = 2)`; and in
general every `NUMBER` with scale strictly greater than 0 maps to the
decimal type with integer-digit count `precision - scale` and
fraction-digit count `scale`. -/
theorem c4_number_decimal :
    mapOracleType defaultConfig ("NUMBER".toList) (some 15) (some 2)
      = { java := "BigDecimal".toList
          ann := ("@Digits(integer = 13, fraction = 2)".toList) } ∧
    ∀ (p s : Nat), 0 < s →
      mapOracleType defaultConfig ("NUMBER".toList) (some p) (some s)
        = { java := "BigDecimal".toList
            ann := ("@Digits(integer = ".toList) ++ (toString ((p : Int) - (s : Int))).toList
              ++ (", fraction = ".toList) ++ (toString s).toList ++ (")".toList) } := by
  constructor
  · decide
  · intro p s hs
    have hn : jsIncludes (jsToUpper ("NUMBER".toList)) ("NUMBER".toList) = true := by decide
    simp only [mapOracleType, hn, if_true, Option.getD_some]
    simp [defaultConfig, jsOr, hs]

/-- Witness for `c4_number_decimal` at `NUMBER(7,3)`. -/
theorem c4_number_decimal_witness :
    mapOracleType defaultConfig ("NUMBER".toList) (some 7) (some 3)
      = { java := "BigDecimal".toList
          ann := ("@Digits(integer = ".toList) ++ (toString ((7 : Int) - (3 : Int))).toList
            ++ (", fraction = ".toList) ++ (toString 3).toList ++ (")".toList) } :=
  c4_number_decimal.2 7 3 (by decide)

/-- C10: under the default configuration, a declared type containing
`NUMBER` with no parenthesized precision and scale reaches the mapper with
both captures `undefined`, which parse to 0, so it maps to the default
integer type `Integer` with the degenerate bound `@Min(0) @Max()` (the
maximum literal, the digit `9` repeated zero times, is empty). -/
theorem c10_number_noparen :
    ∀ ty : List Char, jsIncludes (jsToUpper ty) ("NUMBER".toList) = true →
      mapOracleType defaultConfig ty none none
        = { java := "Integer".toList, ann := ("@Min(0) @Max()".toList) } := by
  intro ty h
  simp only [mapOracleType, h, if_true]
  decide

/-- Witness for `c10_number_noparen` at the declared type `NUMBER`. -/
theorem c10_number_noparen_witness :
    mapOracleType defaultConfig ("NUMBER".toList) none none
      = { java := "Integer".toList, ann := ("@Min(0) @Max()".toList) } :=
  c10_number_noparen ("NUMBER".toList) (by decide)

/-- C6: with the default configuration, `toCamelCase` maps the identifier
`dt_ressarcimento_cliente` to `dtRessarcimentoCliente`: the two-letter
first segment `dt` is kept unchanged (its length is not 3 and no prefix
token extends it), and each later segment is capitalized before
concatenation. -/
theorem c6_camel_compound :
    toCamelCase defaultConfig ("dt_ressarcimento_cliente".toList)
      = ("dtRessarcimentoCliente".toList) := by decide

/-- If the head token is not a string-prefix of the word, the prefix loop
of `toCamelCase` moves on to the remaining tokens. -/
theorem glued_miss (p : List Char) (ps : List (List Char)) (w : List Char)
    (h : p.isPrefixOf w = false) :
    applyGluedToken (p :: ps) w = applyGluedToken ps w := by
  simp [applyGluedToken, h]

/-- A word is always prefixed by itself inside an append (startsWith). -/
theorem isPrefixOf_self_append (p w : List Char) : p.isPrefixOf (p ++ w) = true := by
  induction p with
  | nil => simp [List.isPrefixOf]
  | cons a as ih => simp [List.isPrefixOf, ih]

/-- If the word is the head token glued to a non-empty remainder, the
prefix loop returns the token, the capitalized next character, and the
untouched rest of the word. -/
theorem glued_hit (p : List Char) (ps : List (List Char)) (c : Char) (t : List Char) :
    applyGluedToken (p :: ps) (p ++ c :: t) = p ++ Char.toUpper c :: t := by
  have h1 : p.isPrefixOf (p ++ c :: t) = true := isPrefixOf_self_append p (c :: t)
  have h2 : (decide (p.length < (p ++ c :: t).length)) = true := by simp
  have h3 : (p ++ c :: t).getD p.length ' ' = c := by
    rw [List.getD_append_right p (c :: t) ' ' p.length (Nat.le_refl _)]
    simp
  have h4 : (p ++ c :: t).drop (p.length + 1) = t := by
    rw [@List.drop_append Char p (c :: t) 1, List.drop_one, List.tail_cons]
  simp only [applyGluedToken]
  rw [h1, Bool.true_and, h2, if_pos rfl, h3, h4]

/-- C5: with the default configuration (whose prefix list contains `nr`),
`toCamelCase` maps the underscore-free identifier `nrcliente` to
`nrCliente`; and in general, whenever the first segment is a configured
prefix token of the default list glued to a non-empty remainder, the
prefix loop capitalizes exactly the character immediately following the
token and keeps the rest of the segment unchanged. -/
theorem c5_camel_glued :
    toCamelCase defaultConfig ("nrcliente".toList) = ("nrCliente".toList) ∧
    ∀ (p rest : List Char), p ∈ defaultPrefixTokens → rest ≠ [] →
      applyGluedToken defaultPrefixTokens (p ++ rest)
        = p ++ Char.toUpper (rest.headD ' ') :: rest.tail := by
  refine ⟨by decide, ?_⟩
  intro p rest hp hr
  obtain ⟨c, t, rfl⟩ := List.exists_cons_of_ne_nil hr
  simp only [defaultPrefixTokens] at hp ⊢
  fin_cases hp
  · rw [glued_hit]
    rfl
  · rw [glued_miss ("nr".toList) _ (("cd".toList) ++ c :: t) rfl]
    rw [glued_hit]
    rfl
  · rw [glued_miss ("nr".toList) _ (("ds".toList) ++ c :: t) rfl]
    rw [glued_miss ("cd".toList) _ (("ds".toList) ++ c :: t) rfl]
    rw [glued_hit]
    rfl
  · rw [glued_miss ("nr".toList) _ (("dt".toList) ++ c :: t) rfl]
    rw [glued_miss ("cd".toList) _ (("dt".toList) ++ c :: t) rfl]
    rw [glued_miss ("ds".toList) _ (("dt".toList) ++ c :: t) rfl]
    rw [glued_hit]
    rfl
  · rw [glued_miss ("nr".toList) _ (("fl".toList) ++ c :: t) rfl]
    rw [glued_miss ("cd".toList) _ (("fl".toList) ++ c :: t) rfl]
    rw [glued_miss ("ds".toList) _ (("fl".toList) ++ c :: t) rfl]
    rw [glued_miss ("dt".toList) _ (("fl".toList) ++ c :: t) rfl]
    rw [glued_hit]
    rfl
  · rw [glued_miss ("nr".toList) _ (("vl".toList) ++ c :: t) rfl]
    rw [glued_miss ("cd".toList) _ (("vl".toList) ++ c :: t) rfl]
    rw [glued_miss ("ds".toList) _ (("vl".toList) ++ c :: t) rfl]
    rw [glued_miss ("dt".toList) _ (("vl".toList) ++ c :: t) rfl]
    rw [glued_miss ("fl".toList) _ (("vl".toList) ++ c :: t) rfl]
    rw [glued_hit]
    rfl
  · rw [glued_miss ("nr".toList) _ (("nm".toList) ++ c :: t) rfl]
    rw [glued_miss ("cd".toList) _ (("nm".toList) ++ c :: t) rfl]
    rw [glued_miss ("ds".toList) _ (("nm".toList) ++ c :: t) rfl]
    rw [glued_miss ("dt".toList) _ (("nm".toList) ++ c :: t) rfl]
    rw [glued_miss ("fl".toList) _ (("nm".toList) ++ c :: t) rfl]
    rw [glued_miss ("vl".toList) _ (("nm".toList) ++ c :: t) rfl]
    rw [glued_hit]
    rfl
  · rw [glued_miss ("nr".toList) _ (("tp".toList) ++ c :: t) rfl]
    rw [glued_miss ("cd".toList) _ (("tp".toList) ++ c :: t) rfl]
    rw [glued_miss ("ds".toList) _ (("tp".toList) ++ c :: t) rfl]
    rw [glued_miss ("dt".toList) _ (("tp".toList) ++ c :: t) rfl]
    rw [glued_miss ("fl".toList) _ (("tp".toList) ++ c :: t) rfl]
    rw [glued_miss ("vl".toList) _ (("tp".toList) ++ c :: t) rfl]
    rw [glued_miss ("nm".toList) _ (("tp".toList) ++ c :: t) rfl]
    rw [glued_hit]
    rfl
  · rw [glued_miss ("nr".toList) _ (("chm".toList) ++ c :: t) rfl]
    rw [glued_miss ("cd".toList) _ (("chm".toList) ++ c :: t) rfl]
    rw [glued_miss ("ds".toList) _ (("chm".toList) ++ c :: t) rfl]
    rw [glued_miss ("dt".toList) _ (("chm".toList) ++ c :: t) rfl]
    rw [glued_miss ("fl".toList) _ (("chm".toList) ++ c :: t) rfl]
    rw [glued_miss ("vl".toList) _ (("chm".toList) ++ c :: t) rfl]
    rw [glued_miss ("nm".toList) _ (("chm".toList) ++ c :: t) rfl]
    rw [glued_miss ("tp".toList) _ (("chm".toList) ++ c :: t) rfl]
    rw [glued_hit]
    rfl
  · rw [glued_miss ("nr".toList) _ (("pes".toList) ++ c :: t) rfl]
    rw [glued_miss ("cd".toList) _ (("pes".toList) ++ c :: t) rfl]
    rw [glued_miss ("ds".toList) _ (("pes".toList) ++ c :: t) rfl]
    rw [glued_miss ("dt".toList) _ (("pes".toList) ++ c :: t) rfl]
    rw [glued_miss ("fl".toList) _ (("pes".toList) ++ c :: t) rfl]
    rw [glued_miss ("vl".toList) _ (("pes".toList) ++ c :: t) rfl]
    rw [glued_miss ("nm".toList) _ (("pes".toList) ++ c :: t) rfl]
    rw [glued_miss ("tp".toList) _ (("pes".toList) ++ c :: t) rfl]
    rw [glued_miss ("chm".toList) _ (("pes".toList) ++ c :: t) rfl]
    rw [glued_hit]
    rfl

/-- Witness for `c5_camel_glued` at the token `nr` glued to `c`. -/
theorem c5_camel_glued_witness :
    applyGluedToken defaultPrefixTokens (("nr".toList) ++ ['c'])
      = ("nr".toList) ++ Char.toUpper (['c'].headD ' ') :: ['c'].tail :=
  c5_camel_glued.2 ("nr".toList) ['c'] (by decide) (by decide)

/-- C1 counterexample: `toPascalCase` does not filter non-leading segments
equal to a table-prefix token (`a_tb` keeps its `tb` segment and yields
`ATb`, not `A`), and it has no fallback preventing an empty result
(`tb` yields the empty type name). -/
theorem c1_pascal_counterexample :
    toPascalCase defaultConfig ("tb".toList) = [] ∧
    toPascalCase defaultConfig ("a_tb".toList) = ("ATb".toList) ∧
    ¬ toPascalCase defaultConfig ("a_tb".toList) = ("A".toList) := by decide

/-- C1 amended: `toPascalCase` removes at most one leading segment equal
to a configured table-prefix token (then, with `removeThreeLetterPrefixes`
set, at most one leading three-character segment), capitalizes the first
character of each remaining segment keeping its remainder, and
concatenates; there is no fallback, so the result is empty when every
segment was removed.  Stated as equality with `pascalAmendedSpec`, the
direct transcription of that description, together with the documented
`TB_CLIENTE` example. -/
theorem c1_pascal_amended :
    (∀ (cfg : Config) (s : List Char), toPascalCase cfg s = pascalAmendedSpec cfg s) ∧
    toPascalCase defaultConfig ("TB_CLIENTE".toList) = ("Cliente".toList) ∧
    toPascalCase defaultConfig ("tb_abc_cliente".toList) = ("Cliente".toList) := by
  refine ⟨?_, by decide, by decide⟩
  intro cfg s
  simp only [toPascalCase, pascalAmendedSpec]
  rcases h : splitOnCh '_' (jsToLower s) with _ | ⟨p, rest⟩
  · simp
  · by_cases hm : p ∈ cfg.tablePrefixes.getD [(['t', 'b'] : List Char)]
    · rcases rest with _ | ⟨q, r2⟩
      · simp [hm, List.contains, List.elem_eq_mem]
      · simp [hm, List.contains, List.elem_eq_mem, and_assoc]
    · simp [hm, List.contains, List.elem_eq_mem, and_assoc]

/-- C2 counterexample: under `texCfg` (default configuration with the
string type configured as `Texto`), the single parsed column of `texDDL`
resolves to the configured string type `Texto`, yet `generateDTO` chooses
the non-string marker `@NotNull` for it, because the source compares the
resolved type against the literal `'String'` rather than against the
configured string type. -/
theorem c2_dto_marker_counterexample :
    ((parseDDL texCfg texDDL).columns.map (fun c => c.javaType)) = [("Texto".toList)] ∧
    jsOr texCfg.stringDefault ("String".toList) = ("Texto".toList) ∧
    ((parseDDL texCfg texDDL).columns.map (fun c => dtoMarker texCfg c)) = [("@NotNull".toList)] ∧
    jsOr texCfg.stringValidation ("@NotBlank".toList) = ("@NotBlank".toList) ∧
    ¬ (("@NotNull".toList) = ("@NotBlank".toList)) := by decide

/-- C2 amended: for every configuration and column, the DTO required
marker is the configured string-validation marker (default `@NotBlank`)
exactly when the column's resolved type equals the literal `String`, and
the configured other-validation marker (default `@NotNull`) otherwise;
the comparison is with the hard-coded literal, not with the configured
string type, so the two coincide only when the configured string type is
`String` (as in the default configuration). -/
theorem c2_dto_marker_amended :
    ∀ (cfg : Config) (col : Column),
      (col.javaType = ("String".toList) →
        dtoMarker cfg col = jsOr cfg.stringValidation ("@NotBlank".toList)) ∧
      (¬ col.javaType = ("String".toList) →
        dtoMarker cfg col = jsOr cfg.otherValidation ("@NotNull".toList)) := by
  intro cfg col
  constructor <;> intro h
  · unfold dtoMarker
    rw [if_pos h]
  · unfold dtoMarker
    rw [if_neg h]

/-- Witness for `c2_dto_marker_amended` on a `String` column and a `Long`
column under the default configuration. -/
theorem c2_dto_marker_witness :
    dtoMarker defaultConfig
        { originalName := [], javaName := [], pascalName := [],
          javaType := ("String".toList), ann := [], isId := false }
      = ("@NotBlank".toList) ∧
    dtoMarker defaultConfig
        { originalName := [], javaName := [], pascalName := [],
          javaType := ("Long".toList), ann := [], isId := false }
      = ("@NotNull".toList) :=
  ⟨(c2_dto_marker_amended defaultConfig _).1 rfl,
   (c2_dto_marker_amended defaultConfig _).2 (by decide)⟩

/-- C7: `parseDDL` never fails on table location: when neither the
qualified pattern `CREATE TABLE schema.table` nor the simple pattern
`CREATE TABLE table` matches anywhere in the input, the model uses the
placeholders `Unknown` (table) and `dbo` (schema); and whenever only the
simple pattern matches, the schema is the same fixed placeholder `dbo`. -/
theorem c7_parse_defaults :
    ∀ (cfg : Config) (ddl : List Char),
      (searchQualified ddl = none → searchSimple ddl = none →
        (parseDDL cfg ddl).originalTableName = ("Unknown".toList) ∧
        (parseDDL cfg ddl).schema = ("dbo".toList)) ∧
      (∀ t, searchQualified ddl = none → searchSimple ddl = some t →
        (parseDDL cfg ddl).schema = ("dbo".toList)) := by
  intro cfg ddl
  constructor
  · intro h1 h2
    constructor <;> simp [parseDDL, schemaTable, h1, h2]
  · intro t h1 h2
    simp [parseDDL, schemaTable, h1, h2]

/-- Witness for `c7_parse_defaults` on a text with no table declaration
and on a schema-less declaration. -/
theorem c7_parse_defaults_witness :
    ((parseDDL defaultConfig ("no table here".toList)).originalTableName = ("Unknown".toList) ∧
      (parseDDL defaultConfig ("no table here".toList)).schema = ("dbo".toList)) ∧
    (parseDDL defaultConfig ("CREATE TABLE pedidos\nID NUMBER(3)".toList)).schema
      = ("dbo".toList) :=
  ⟨(c7_parse_defaults defaultConfig ("no table here".toList)).1 (by decide) (by decide),
   (c7_parse_defaults defaultConfig ("CREATE TABLE pedidos\nID NUMBER(3)".toList)).2
     ("pedidos".toList) (by decide) (by decide)⟩

/-- C8: for every DDL text in which the table-level pattern
`PRIMARY KEY (...)` does not match, every column of the parsed model has
its primary-key flag false, and the composite-key marker spliced into the
entity by `generateEntity` (the `pkClass` string, `@IdClass(...)` when
more than one column is flagged) is empty. -/
theorem c8_no_pk :
    ∀ (cfg : Config) (ddl : List Char), searchPK ddl = none →
      (∀ col ∈ (parseDDL cfg ddl).columns, col.isId = false) ∧
      entityPkClass (parseDDL cfg ddl) = [] := by
  intro cfg ddl h
  have hpk : pkList ddl = [] := by simp [pkList, h]
  have hcols : ∀ col ∈ (parseDDL cfg ddl).columns, col.isId = false := by
    intro col hcol
    simp only [parseDDL, hpk] at hcol
    rw [List.mem_filterMap] at hcol
    obtain ⟨l, -, hl⟩ := hcol
    simp only [processLine] at hl
    split at hl
    · exact absurd hl (by simp)
    · split at hl
      · exact absurd hl (by simp)
      · rw [Option.some_inj] at hl
        rw [hl.symm]
        rfl
  refine ⟨hcols, ?_⟩
  have hfilter : (parseDDL cfg ddl).columns.filter (fun c => c.isId) = [] :=
    List.filter_eq_nil_iff.mpr (fun c hc => by simp [hcols c hc])
  simp [entityPkClass, hfilter]

/-- Witness for `c8_no_pk` on a two-column DDL without a primary-key
clause. -/
theorem c8_no_pk_witness :
    ((parseDDL defaultConfig ("CREATE TABLE a.b\nID NUMBER(5),\nNM_X VARCHAR2(9)\n)".toList)).columns.headD default).isId = false ∧
    entityPkClass (parseDDL defaultConfig ("CREATE TABLE a.b\nID NUMBER(5),\nNM_X VARCHAR2(9)\n)".toList))
      = [] :=
  ⟨(c8_no_pk defaultConfig ("CREATE TABLE a.b\nID NUMBER(5),\nNM_X VARCHAR2(9)\n)".toList)
      (by decide)).1 _ (by decide),
   (c8_no_pk defaultConfig ("CREATE TABLE a.b\nID NUMBER(5),\nNM_X VARCHAR2(9)\n)".toList)
      (by decide)).2⟩

/-- C9: whenever some line of the DDL trims to a standalone table-level
clause of the form `PRIMARY KEY (...)`, `parseDDL` appends a spurious
column for it: the line filter skips only lines starting with
`CONSTRAINT`, `CREATE`, `KEY` or `)`, so the line matches the column
pattern with name `PRIMARY` and declared type `KEY`, which the type
mapper sends to the fallback string type with an empty annotation. -/
theorem c9_spurious_pk_column :
    ∀ (ddl line rest : List Char),
      line ∈ splitOnCh '\n' ddl →
      jsTrim line = ("PRIMARY KEY (".toList) ++ rest →
      ({ originalName := ("PRIMARY".toList), javaName := ("primary".toList),
         pascalName := ("Primary".toList), javaType := ("String".toList),
         ann := [], isId := (pkList ddl).contains ("PRIMARY".toList) } : Column)
        ∈ (parseDDL defaultConfig ddl).columns := by
  intro ddl line rest hmem htrim
  simp only [parseDDL]
  rw [List.mem_filterMap]
  refine ⟨line, hmem, ?_⟩
  simp only [processLine, htrim]
  rfl

/-- Witness for `c9_spurious_pk_column` on a DDL whose third line is
`PRIMARY KEY (ID)`. -/
theorem c9_spurious_pk_column_witness :
    ({ originalName := ("PRIMARY".toList), javaName := ("primary".toList),
       pascalName := ("Primary".toList), javaType := ("String".toList),
       ann := [],
       isId := (pkList ("CREATE TABLE T\nID NUMBER(5),\nPRIMARY KEY (ID)\n)".toList)).contains
         ("PRIMARY".toList) } : Column)
      ∈ (parseDDL defaultConfig ("CREATE TABLE T\nID NUMBER(5),\nPRIMARY KEY (ID)\n)".toList)).columns :=
  c9_spurious_pk_column ("CREATE TABLE T\nID NUMBER(5),\nPRIMARY KEY (ID)\n)".toList)
    ("PRIMARY KEY (ID)".toList) ("ID)".toList) (by decide) (by decide)
